import Mathlib

/-!
Verification of the metadata crawler pipeline (`src/main.py`).

The Python program is shallowly embedded: pure string manipulation
(`replace_ipfs_gateway`, the scheme checks of `request_metadata`, Python
truthiness) is translated directly; the external effects (the `datauri`
library call inside `try_get_data`, the aiohttp transport inside
`request_metadata`) are taken as explicit function parameters whose result
type enumerates exactly the outcomes the Python code distinguishes by its
`try`/`except` structure.  The worker / batcher / producer loops are
modelled by their per-iteration step functions.
-/

namespace Crawler

/-! ## Python string primitives

Python `str.lower()` lowercases code points; `Char.toLower` handles the
ASCII range, which covers every scheme prefix the program compares
against.  Python `str.startswith(p)` is prefix-of over code points. -/

def pyLowerList (s : String) : List Char :=
  s.toList.map Char.toLower

def pyStartsWith (cs : List Char) (pre : String) : Bool :=
  pre.toList.isPrefixOf cs

/-- Python truthiness of an `Optional[str]`: `None` and `""` are falsy. -/
def pyTruthyStr : Option String → Bool
  | none => false
  | some s => decide (s ≠ "")

/-- Python truthiness of an `Optional[int]`: `None` and `0` are falsy. -/
def pyTruthyInt : Option Int → Bool
  | none => false
  | some c => decide (c ≠ 0)

/-- `json.dumps({"error": msg})` for a plain ASCII message (Python's
default separators put one space after the colon). -/
def jsonError (msg : String) : String :=
  "\x7b\"error\": \"" ++ msg ++ "\"\x7d"

/-! ## Status codes (src/main.py lines 35-41) -/

def STATUS_CODE_NO_RESULT : Int := 0
def STATUS_CODE_NOT_PARSABLE : Int := 1
def STATUS_CODE_INVALID_URI : Int := 2
def STATUS_CODE_SERVICE_NOT_FOUND : Int := 3
def STATUS_CODE_INVALID_IPFS : Int := 4
def STATUS_CODE_UNKNOWN_PROTOCOL : Int := 5
def STATUS_CODE_NO_JSON : Int := 1

/-! ## Data model (class WorkloadItem, lines 47-71) -/

structure WorkloadItem where
  contract_hash : String
  token_id : String
  token_uri : String
  response_code : Option Int := none
  metadata : Option String := none
deriving DecidableEq, Repr

def WorkloadItem.set_metadata (item : WorkloadItem)
    (response_code : Option Int) (metadata : Option String) : WorkloadItem :=
  { item with response_code := response_code, metadata := metadata }

/-! ## Gateway rewrite (replace_ipfs_gateway, lines 90-95)

`re.search("\/([a-zA-Z0-9]{46}|[a-z0-9]{59})(\/|$){1}", token_uri)` finds
the leftmost position where a `/` is followed by either 46 ASCII
alphanumerics or 59 lowercase ASCII alphanumerics, after which comes
another `/` or the end of the string (Python `$` also matches just before
a single trailing newline).  `found.start()` is the index of that leading
slash, so the slash itself is part of `token_uri[found.start():]`. -/

def isAlnumAscii (c : Char) : Bool :=
  ('a' ≤ c && c ≤ 'z') || ('A' ≤ c && c ≤ 'Z') || ('0' ≤ c && c ≤ '9')

def isLowerAlnumAscii (c : Char) : Bool :=
  ('a' ≤ c && c ≤ 'z') || ('0' ≤ c && c ≤ '9')

/-- The `(\/|$){1}` tail of the pattern: next char is `/`, or end of
string, or a single trailing newline. -/
def boundaryOk : List Char → Bool
  | [] => true
  | '/' :: _ => true
  | ['\n'] => true
  | _ => false

/-- The part of the pattern after the leading `\/`: 46 alphanumerics or 59
lowercase alphanumerics, then a boundary. -/
def segMatch (cs : List Char) : Bool :=
  (decide (46 ≤ cs.length) && (cs.take 46).all isAlnumAscii && boundaryOk (cs.drop 46))
  || (decide (59 ≤ cs.length) && (cs.take 59).all isLowerAlnumAscii && boundaryOk (cs.drop 59))

/-- Leftmost-match search: index of the first `/` from which the whole
pattern matches (re.search scans left to right). -/
def searchFrom : List Char → Nat → Option Nat
  | [], _ => none
  | c :: rest, i =>
      if (c == '/') && segMatch rest then some i else searchFrom rest (i + 1)

/-- Does the whole regex match at position `i`? -/
def hasMatchAt (cs : List Char) (i : Nat) : Bool :=
  match cs.drop i with
  | c :: rest => (c == '/') && segMatch rest
  | [] => false

/-- `replace_ipfs_gateway`.  `IPFS_GATEWAY` is the module-level global
read from the environment; it is passed explicitly here. -/
def replace_ipfs_gateway (IPFS_GATEWAY : String) (token_uri : String) : String :=
  match searchFrom token_uri.toList 0 with
  | none => token_uri
  | some i => IPFS_GATEWAY ++ String.mk (token_uri.toList.drop i)

/-! ## Fetch classifier (request_metadata, lines 98-117)

The aiohttp transport is a parameter: `TransportOutcome` enumerates the
outcomes the `try`/`except` structure of `request_metadata`
distinguishes.  In the `response` case, `dumped` stands for
`json.dumps(await response.json())`, the re-serialized body. -/

inductive JsonOutcome where
  /-- `await response.json()` succeeded; `dumped` is the re-serialized body. -/
  | parsed (dumped : String)
  /-- `response.json()` raised `JSONDecodeError`. -/
  | decodeError
  /-- `response.json()` raised `ContentTypeError` (content-type not JSON). -/
  | contentTypeError
deriving DecidableEq

inductive TransportOutcome where
  /-- `session.get` returned a response with this HTTP status. -/
  | response (status : Int) (body : JsonOutcome)
  /-- `session.get` raised `ClientConnectorError`. -/
  | connectorError
  /-- `session.get` raised `InvalidURL`. -/
  | invalidURL
  /-- some other exception was raised (line 116): the bare `(None, None)`. -/
  | otherError
deriving DecidableEq

def request_metadata (transport : String → TransportOutcome)
    (token_uri : String) : Option Int × Option String :=
  if pyStartsWith (pyLowerList token_uri) "ipfs://" then
    (some STATUS_CODE_INVALID_IPFS, some (jsonError "invalid ipfs link"))
  else if pyStartsWith (pyLowerList token_uri) "ar://" then
    (some STATUS_CODE_UNKNOWN_PROTOCOL, some (jsonError "unknown protocol"))
  else
    match transport token_uri with
    | .response status (.parsed dumped) => (some status, some dumped)
    | .response _ .decodeError =>
        (some STATUS_CODE_NOT_PARSABLE, some (jsonError "result is not parsable"))
    | .response _ .contentTypeError =>
        (some STATUS_CODE_NO_JSON, some (jsonError "result is no json"))
    | .connectorError =>
        (some STATUS_CODE_SERVICE_NOT_FOUND, some (jsonError "service not found"))
    | .invalidURL =>
        (some STATUS_CODE_INVALID_URI, some (jsonError "invalid URI"))
    | .otherError => (none, none)

/-! ## Worker (worker, lines 130-155)

`try_get_data` (lines 81-87) wraps the external `datauri` library: it
returns the UTF-8 decode of the parsed payload and `None` on any
exception; it is passed as a function parameter.  `worker_process` is
the body of the worker loop for one dequeued item: resolve the URI,
then `item.set_metadata(code, data)` is the item pushed onto
`output_queue`.  The `if data:` / `if not code and not data:` tests are
Python truthiness. -/

def worker_process (try_get_data : String → Option String)
    (transport : String → TransportOutcome) (IPFS_GATEWAY : String)
    (item : WorkloadItem) : WorkloadItem :=
  let data := try_get_data item.token_uri
  if pyTruthyStr data then
    item.set_metadata (some 200) data
  else
    let token_uri := replace_ipfs_gateway IPFS_GATEWAY item.token_uri
    let cd := request_metadata transport token_uri
    let cd :=
      if !pyTruthyInt cd.1 && !pyTruthyStr cd.2 then
        (some (0 : Int), some (jsonError "no response"))
      else cd
    item.set_metadata cd.1 cd.2

/-! ## Result batcher (save_worker, lines 158-187)

One loop iteration drains `size = min(output_queue.qsize(), 100)` items
and, when nonempty, persists them in a single `save_workload` call.
Under no concurrent replenishment the sink calls are the batches below.
(The `if item:` test always holds: a `WorkloadItem` object is truthy.)
The recursion is structural on a fuel argument; `q.length` iterations
always suffice because each non-final iteration drains at least one
item. -/

def save_worker_go {α : Type} : Nat → List α → List (List α)
  | _, [] => []
  | 0, _ :: _ => []
  | fuel + 1, x :: xs =>
      let q := x :: xs
      let size := min q.length 100
      q.take size :: save_worker_go fuel (q.drop size)

def save_worker_batches {α : Type} (q : List α) : List (List α) :=
  save_worker_go q.length q

/-! ## Producer / backpressure (main, lines 198-211)

One iteration of the producer loop, as a function of the Work Queue
depth (`input_queue.qsize()`), the Result Queue depth
(`output_queue.qsize()`) and — when fetched — the page returned by
`get_workload`.  `fetched` records whether `get_workload` was called,
`enqueued` which items were put on the Work Queue, `halted` whether
`main` returned, `slept` whether the iteration waited one poll
interval. -/

structure ProducerStep where
  fetched : Bool
  enqueued : List WorkloadItem
  halted : Bool
  slept : Bool
deriving DecidableEq

def producer_step (inDepth outDepth : Nat) (page : List WorkloadItem) : ProducerStep :=
  if 10000 < inDepth then
    { fetched := false, enqueued := [], halted := false, slept := true }
  else if page.isEmpty then
    if outDepth = 0 ∧ inDepth = 0 then
      { fetched := true, enqueued := [], halted := true, slept := false }
    else
      { fetched := true, enqueued := [], halted := false, slept := true }
  else
    { fetched := true, enqueued := page, halted := false, slept := false }

/-! ## Module initialization (lines 20-32)

The environment is four `Optional[str]` values; `pyInt` stands for
Python's `int()` conversion (`none` = `ValueError`).  Line 23 computes
`MAX_REQUESTS = int(os.getenv("MAX_REQUESTS")) if os.getenv("MAX_REQUESTS")
else 200` before the three `if not ...: raise RuntimeError` checks of
lines 25-32 run, in source order API_URI, API_KEY, IPFS_GATEWAY.
`Except.error` is the message of the `RuntimeError` (or `ValueError`)
that aborts startup. -/

structure Config where
  API_KEY : Option String
  API_URI : Option String
  IPFS_GATEWAY : Option String
  MAX_REQUESTS : Int
deriving DecidableEq

def module_init (api_key api_uri ipfs_gateway max_requests : Option String)
    (pyInt : String → Option Int) : Except String Config :=
  match
    (if pyTruthyStr max_requests then
      match max_requests with
      | some s =>
          match pyInt s with
          | some n => Except.ok n
          | none => Except.error "ValueError: invalid literal for int()"
      | none => Except.ok 200
    else Except.ok 200 : Except String Int)
  with
  | .error e => .error e
  | .ok mr =>
    if !pyTruthyStr api_uri then .error "No API_URI set!"
    else if !pyTruthyStr api_key then .error "No API_KEY set!"
    else if !pyTruthyStr ipfs_gateway then .error "No IPFS_GATEWAY set!"
    else .ok { API_KEY := api_key, API_URI := api_uri,
               IPFS_GATEWAY := ipfs_gateway, MAX_REQUESTS := mr }

/-! ## Lemmas about the regex search -/

lemma hasMatchAt_nil (i : Nat) : hasMatchAt [] i = false := by
  simp [hasMatchAt]

lemma hasMatchAt_cons_zero (c : Char) (cs : List Char) :
    hasMatchAt (c :: cs) 0 = ((c == '/') && segMatch cs) := by
  simp [hasMatchAt]

lemma hasMatchAt_cons_succ (c : Char) (cs : List Char) (j : Nat) :
    hasMatchAt (c :: cs) (j + 1) = hasMatchAt cs j := by
  simp [hasMatchAt]

lemma hasMatchAt_of_le (cs : List Char) (i : Nat) (h : cs.length ≤ i) :
    hasMatchAt cs i = false := by
  simp [hasMatchAt, List.drop_eq_nil_of_le h]

lemma searchFrom_some (cs : List Char) (k i : Nat)
    (h : hasMatchAt cs i = true) (hmin : ∀ j < i, hasMatchAt cs j = false) :
    searchFrom cs k = some (k + i) := by
  induction cs generalizing k i with
  | nil => rw [hasMatchAt_nil] at h; exact absurd h (by simp)
  | cons c rest ih =>
    cases i with
    | zero =>
      rw [hasMatchAt_cons_zero] at h
      simp [searchFrom, h]
    | succ j =>
      have h0 : hasMatchAt (c :: rest) 0 = false := hmin 0 (Nat.succ_pos j)
      rw [hasMatchAt_cons_zero] at h0
      rw [hasMatchAt_cons_succ] at h
      have hrest := ih (k + 1) j h (fun l hl => by
        have := hmin (l + 1) (Nat.succ_lt_succ hl)
        rwa [hasMatchAt_cons_succ] at this)
      simp [searchFrom, h0, hrest]
      omega

lemma searchFrom_none (cs : List Char) (k : Nat)
    (h : ∀ j, hasMatchAt cs j = false) : searchFrom cs k = none := by
  induction cs generalizing k with
  | nil => rfl
  | cons c rest ih =>
    have h0 := h 0
    rw [hasMatchAt_cons_zero] at h0
    simp [searchFrom, h0]
    exact ih (k + 1) (fun j => by
      have := h (j + 1)
      rwa [hasMatchAt_cons_succ] at this)

/-! ## Claim theorems -/

/-- C3 (counterexample): the claimed rewrite of
`https://example.com/ipfs/Qm<46chars>/meta.json` with gateway
`https://gw/ipfs/` is `https://gw/ipfs/Qm<46chars>/meta.json`; the code
instead keeps the slash in front of the matched segment
(`found.start()` is the index of the `\/` the pattern begins with), so
the result has a double slash and differs from the claimed value. -/
theorem C3_counterexample :
    replace_ipfs_gateway "https://gw/ipfs/"
        "https://example.com/ipfs/Qmaaaaaaaaaaaaaaaaaaaaaaaaaaaaaaaaaaaaaaaaaaaa/meta.json" ≠
      "https://gw/ipfs/Qmaaaaaaaaaaaaaaaaaaaaaaaaaaaaaaaaaaaaaaaaaaaa/meta.json" := by
  decide

/-- C3 (amended): when the regex `\/([a-zA-Z0-9]{46}|[a-z0-9]{59})(\/|$)`
matches the URI, `replace_ipfs_gateway` returns the gateway prefix
concatenated with the URI from the slash *preceding* the matched segment
through the end (so the spec example yields
`https://gw/ipfs//Qm<46chars>/meta.json`, with a double slash); a URI
with no match is returned unchanged. -/
theorem C3_gateway_rewrite (IPFS_GATEWAY token_uri : String) :
    ((∀ i < token_uri.toList.length, hasMatchAt token_uri.toList i = false) →
      replace_ipfs_gateway IPFS_GATEWAY token_uri = token_uri) ∧
    (∀ i, hasMatchAt token_uri.toList i = true →
      (∀ j < i, hasMatchAt token_uri.toList j = false) →
      replace_ipfs_gateway IPFS_GATEWAY token_uri =
        IPFS_GATEWAY ++ String.mk (token_uri.toList.drop i)) ∧
    replace_ipfs_gateway "https://gw/ipfs/"
        "https://example.com/ipfs/Qmaaaaaaaaaaaaaaaaaaaaaaaaaaaaaaaaaaaaaaaaaaaa/meta.json" =
      "https://gw/ipfs//Qmaaaaaaaaaaaaaaaaaaaaaaaaaaaaaaaaaaaaaaaaaaaa/meta.json" := by
  refine ⟨fun hb => ?_, fun i h hmin => ?_, by decide⟩
  · have hall : ∀ j, hasMatchAt token_uri.toList j = false := by
      intro j
      by_cases hj : j < token_uri.toList.length
      · exact hb j hj
      · exact hasMatchAt_of_le _ _ (Nat.le_of_not_lt hj)
    have hn := searchFrom_none token_uri.toList 0 hall
    rw [String.toList] at hn
    simp [replace_ipfs_gateway, hn]
  · have hs := searchFrom_some token_uri.toList 0 i h hmin
    rw [String.toList, Nat.zero_add] at hs
    simp [replace_ipfs_gateway, hs]

/-- C3 (witness): the second branch of `C3_gateway_rewrite` applied at
the spec's example (match at index 24), and the first branch applied at
a URI with no content-address segment. -/
theorem C3_gateway_rewrite_witness :
    replace_ipfs_gateway "https://gw/ipfs/"
        "https://example.com/ipfs/Qmaaaaaaaaaaaaaaaaaaaaaaaaaaaaaaaaaaaaaaaaaaaa/meta.json" =
      "https://gw/ipfs/" ++ String.mk
        (("https://example.com/ipfs/Qmaaaaaaaaaaaaaaaaaaaaaaaaaaaaaaaaaaaaaaaaaaaa/meta.json").toList.drop 24) ∧
    replace_ipfs_gateway "https://gw/ipfs/" "https://a.b/c" = "https://a.b/c" :=
  ⟨(C3_gateway_rewrite "https://gw/ipfs/"
      "https://example.com/ipfs/Qmaaaaaaaaaaaaaaaaaaaaaaaaaaaaaaaaaaaaaaaaaaaa/meta.json").2.1
      24 (by decide) (by decide),
   (C3_gateway_rewrite "https://gw/ipfs/" "https://a.b/c").1 (by decide)⟩

/-! ## Lemmas about the scheme checks -/

/-- A string beginning with `ar://` does not begin with `ipfs://`, so the
second scheme check of `request_metadata` is reached whenever it
applies. -/
lemma pyStartsWith_ar_not_ipfs (cs : List Char)
    (h : pyStartsWith cs "ar://" = true) : pyStartsWith cs "ipfs://" = false := by
  cases cs with
  | nil => simp [pyStartsWith, List.isPrefixOf] at h
  | cons c rest =>
    have hc : c = 'a' := by
      have h' : (('a' == c) && List.isPrefixOf ['r', ':', '/', '/'] rest) = true := h
      have := (Bool.and_eq_true _ _).mp h'
      exact (beq_iff_eq.mp this.1).symm
    subst hc
    show (('i' == 'a') && List.isPrefixOf ['p', 'f', 's', ':', '/', '/'] rest) = false
    simp

/-- The first scheme check of `request_metadata`. -/
lemma request_metadata_ipfs (transport : String → TransportOutcome) (token_uri : String)
    (h : pyStartsWith (pyLowerList token_uri) "ipfs://" = true) :
    request_metadata transport token_uri =
      (some STATUS_CODE_INVALID_IPFS, some (jsonError "invalid ipfs link")) := by
  simp [request_metadata, h]

/-- The second scheme check of `request_metadata`. -/
lemma request_metadata_ar (transport : String → TransportOutcome) (token_uri : String)
    (h : pyStartsWith (pyLowerList token_uri) "ar://" = true) :
    request_metadata transport token_uri =
      (some STATUS_CODE_UNKNOWN_PROTOCOL, some (jsonError "unknown protocol")) := by
  simp [request_metadata, pyStartsWith_ar_not_ipfs _ h, h]

/-- Every branch of `request_metadata` returns either two set values or
the bare `(None, None)` of line 117. -/
lemma request_metadata_shape (transport : String → TransportOutcome) (token_uri : String) :
    (∃ c d, request_metadata transport token_uri = (some c, some d)) ∨
    request_metadata transport token_uri = (none, none) := by
  unfold request_metadata
  split
  · exact .inl ⟨_, _, rfl⟩
  split
  · exact .inl ⟨_, _, rfl⟩
  cases htr : transport token_uri with
  | response status body => cases body <;> exact .inl ⟨_, _, rfl⟩
  | connectorError => exact .inl ⟨_, _, rfl⟩
  | invalidURL => exact .inl ⟨_, _, rfl⟩
  | otherError => exact .inr rfl

/-- C10: the scheme rejection of `request_metadata` compares the
lowercased URI, so it is case-insensitive: a URI whose lowercased form
begins with `ipfs://` yields `(4, {"error": "invalid ipfs link"})`, and
one whose lowercased form begins with `ar://` yields
`(5, {"error": "unknown protocol"})`. -/
theorem C10_case_insensitive_scheme (transport : String → TransportOutcome)
    (token_uri : String) :
    (pyStartsWith (pyLowerList token_uri) "ipfs://" = true →
      request_metadata transport token_uri =
        (some STATUS_CODE_INVALID_IPFS, some (jsonError "invalid ipfs link"))) ∧
    (pyStartsWith (pyLowerList token_uri) "ar://" = true →
      request_metadata transport token_uri =
        (some STATUS_CODE_UNKNOWN_PROTOCOL, some (jsonError "unknown protocol"))) := by
  exact ⟨request_metadata_ipfs transport token_uri, request_metadata_ar transport token_uri⟩

/-- C10 (witness): mixed-case `IPFS://` and `Ar://` URIs are rejected
with codes 4 and 5. -/
theorem C10_case_insensitive_scheme_witness :
    request_metadata (fun _ => TransportOutcome.otherError) "IPFS://Abc" =
      (some STATUS_CODE_INVALID_IPFS, some (jsonError "invalid ipfs link")) ∧
    request_metadata (fun _ => TransportOutcome.otherError) "Ar://xyz" =
      (some STATUS_CODE_UNKNOWN_PROTOCOL, some (jsonError "unknown protocol")) :=
  ⟨(C10_case_insensitive_scheme (fun _ => TransportOutcome.otherError) "IPFS://Abc").1
      (by decide),
   (C10_case_insensitive_scheme (fun _ => TransportOutcome.otherError) "Ar://xyz").2
      (by decide)⟩

/-- C5: `request_metadata` maps transport outcomes as specified: a body
that parses as JSON yields the HTTP status with the re-serialized body;
a parse failure on a structured content-type yields code 1 with
`result is not parsable`; a non-JSON content-type yields code 1 with
`result is no json`; a connection failure yields code 3 with
`service not found`; a URI rejected by the HTTP client yields code 2
with `invalid URI` — for any URI that is not scheme-rejected first. -/
theorem C5_transport_classification (token_uri : String) (status : Int) (dumped : String)
    (hipfs : pyStartsWith (pyLowerList token_uri) "ipfs://" = false)
    (har : pyStartsWith (pyLowerList token_uri) "ar://" = false) :
    request_metadata (fun _ => .response status (.parsed dumped)) token_uri =
      (some status, some dumped) ∧
    request_metadata (fun _ => .response status .decodeError) token_uri =
      (some STATUS_CODE_NOT_PARSABLE, some (jsonError "result is not parsable")) ∧
    request_metadata (fun _ => .response status .contentTypeError) token_uri =
      (some STATUS_CODE_NO_JSON, some (jsonError "result is no json")) ∧
    request_metadata (fun _ => .connectorError) token_uri =
      (some STATUS_CODE_SERVICE_NOT_FOUND, some (jsonError "service not found")) ∧
    request_metadata (fun _ => .invalidURL) token_uri =
      (some STATUS_CODE_INVALID_URI, some (jsonError "invalid URI")) := by
  refine ⟨?_, ?_, ?_, ?_, ?_⟩ <;> simp [request_metadata, hipfs, har]

/-- C5 (witness): the connection-failure case at a concrete URI. -/
theorem C5_transport_classification_witness :
    request_metadata (fun _ => TransportOutcome.connectorError) "https://x.y/z" =
      (some STATUS_CODE_SERVICE_NOT_FOUND, some (jsonError "service not found")) :=
  (C5_transport_classification "https://x.y/z" 404 "[1, 2]" (by decide) (by decide)).2.2.2.1

/-! ## Lemmas about the worker branches -/

/-- Inline branch of the worker: a truthy decode short-circuits to
status 200 with the decoded text, for every transport behaviour. -/
lemma worker_process_inline (try_get_data : String → Option String)
    (transport : String → TransportOutcome) (IPFS_GATEWAY : String)
    (item : WorkloadItem) (t : String)
    (hget : try_get_data item.token_uri = some t) (hne : t ≠ "") :
    worker_process try_get_data transport IPFS_GATEWAY item =
      item.set_metadata (some 200) (some t) := by
  simp only [worker_process]
  rw [hget]
  have hc : pyTruthyStr (some t) = true := decide_eq_true hne
  rw [if_pos hc]

/-- Remote branch of the worker with a classification result that is
truthy in at least one component: emitted unchanged (Python
`if not code and not data`). -/
lemma worker_process_remote_keep (try_get_data : String → Option String)
    (transport : String → TransportOutcome) (IPFS_GATEWAY : String)
    (item : WorkloadItem) (c : Int) (d : String)
    (hb : pyTruthyStr (try_get_data item.token_uri) = false)
    (hkeep : c ≠ 0 ∨ d ≠ "")
    (hcd : request_metadata transport (replace_ipfs_gateway IPFS_GATEWAY item.token_uri) =
      (some c, some d)) :
    worker_process try_get_data transport IPFS_GATEWAY item =
      item.set_metadata (some c) (some d) := by
  simp only [worker_process]
  rw [if_neg (by simp [hb])]
  rw [hcd]
  rcases hkeep with hc | hd
  · simp [pyTruthyInt, hc]
  · simp [pyTruthyStr, hd]

/-- Remote branch of the worker when the classification is the falsy
pair `(0, "")`: Python truthiness converts it like `(None, None)`. -/
lemma worker_process_zero_empty (try_get_data : String → Option String)
    (transport : String → TransportOutcome) (IPFS_GATEWAY : String)
    (item : WorkloadItem)
    (hb : pyTruthyStr (try_get_data item.token_uri) = false)
    (hcd : request_metadata transport (replace_ipfs_gateway IPFS_GATEWAY item.token_uri) =
      (some 0, some "")) :
    worker_process try_get_data transport IPFS_GATEWAY item =
      item.set_metadata (some 0) (some (jsonError "no response")) := by
  simp only [worker_process]
  rw [if_neg (by simp [hb])]
  rw [hcd]
  simp [pyTruthyInt, pyTruthyStr]

/-- Remote branch of the worker with the bare `(None, None)` result:
conversion to code 0 with the generic payload. -/
lemma worker_process_remote_none (try_get_data : String → Option String)
    (transport : String → TransportOutcome) (IPFS_GATEWAY : String)
    (item : WorkloadItem)
    (hb : pyTruthyStr (try_get_data item.token_uri) = false)
    (hcd : request_metadata transport (replace_ipfs_gateway IPFS_GATEWAY item.token_uri) =
      (none, none)) :
    worker_process try_get_data transport IPFS_GATEWAY item =
      item.set_metadata (some 0) (some (jsonError "no response")) := by
  simp only [worker_process]
  rw [if_neg (by simp [hb])]
  rw [hcd]
  simp [pyTruthyInt, pyTruthyStr]

/-- C2 (counterexample): a data URI that decodes successfully to the
empty string is *not* emitted with status 200: `if data:` in the worker
is Python truthiness, so the empty decoded text falls through to the
remote path — here a connection failure, emitted as code 3. -/
theorem C2_counterexample :
    (worker_process (fun _ => some "") (fun _ => TransportOutcome.connectorError)
        "https://gw/ipfs/"
        { contract_hash := "c", token_id := "1", token_uri := "data:," }).response_code =
      some STATUS_CODE_SERVICE_NOT_FOUND ∧
    (worker_process (fun _ => some "") (fun _ => TransportOutcome.connectorError)
        "https://gw/ipfs/"
        { contract_hash := "c", token_id := "1", token_uri := "data:," }).response_code ≠
      some 200 := by
  decide

/-- C2 (amended): for every work item whose token URI decodes to a
*non-empty* text, the worker emits status 200 with the decoded text as
payload, for every possible transport behaviour — the remote path is
never consulted.  (An empty decoded text is falsy in Python and falls
through to the remote path.) -/
theorem C2_inline_data (try_get_data : String → Option String)
    (transport : String → TransportOutcome) (IPFS_GATEWAY : String)
    (item : WorkloadItem) (t : String)
    (hget : try_get_data item.token_uri = some t) (hne : t ≠ "") :
    worker_process try_get_data transport IPFS_GATEWAY item =
      item.set_metadata (some 200) (some t) :=
  worker_process_inline try_get_data transport IPFS_GATEWAY item t hget hne

/-- C2 (witness): an inline JSON payload is emitted as-is with code 200
even when every remote fetch would fail. -/
theorem C2_inline_data_witness :
    worker_process (fun _ => some "[1]") (fun _ => TransportOutcome.otherError)
        "https://gw/ipfs/"
        { contract_hash := "c", token_id := "1", token_uri := "data:application/json,[1]" } =
      ({ contract_hash := "c", token_id := "1",
         token_uri := "data:application/json,[1]" } : WorkloadItem).set_metadata
        (some 200) (some "[1]") :=
  C2_inline_data (fun _ => some "[1]") (fun _ => TransportOutcome.otherError)
    "https://gw/ipfs/" _ "[1]" rfl (by decide)

/-- C1 (counterexample): the worker rewrites the URI *before* the scheme
check: an `ipfs://` URI containing a 46-character content segment is
rewritten to a gateway URL, fetched, and emitted with the fetch's
status (here 200), not with code 4. -/
theorem C1_counterexample :
    pyStartsWith
        ("ipfs://Qmaaaaaaaaaaaaaaaaaaaaaaaaaaaaaaaaaaaaaaaaaaaa/meta.json".toList)
        "ipfs://" = true ∧
    (worker_process (fun _ => none)
        (fun _ => TransportOutcome.response 200 (JsonOutcome.parsed "[1]"))
        "https://gw/ipfs/"
        { contract_hash := "c", token_id := "1",
          token_uri := "ipfs://Qmaaaaaaaaaaaaaaaaaaaaaaaaaaaaaaaaaaaaaaaaaaaa/meta.json" }).response_code =
      some 200 ∧
    (worker_process (fun _ => none)
        (fun _ => TransportOutcome.response 200 (JsonOutcome.parsed "[1]"))
        "https://gw/ipfs/"
        { contract_hash := "c", token_id := "1",
          token_uri := "ipfs://Qmaaaaaaaaaaaaaaaaaaaaaaaaaaaaaaaaaaaaaaaaaaaa/meta.json" }).response_code ≠
      some STATUS_CODE_INVALID_IPFS := by
  decide

/-- C1 (amended): the gateway rewrite runs before the scheme check, so
the rejection applies to the *rewritten* URI: when the inline-data
decode fails and the rewritten URI still begins with `ipfs://` the
emitted status is exactly 4 with payload `invalid ipfs link`; when it
begins with `ar://`, exactly 5 with `unknown protocol`.  A rewrite can
therefore change which URIs are rejected. -/
theorem C1_scheme_rejection (try_get_data : String → Option String)
    (transport : String → TransportOutcome) (IPFS_GATEWAY : String)
    (item : WorkloadItem)
    (hb : pyTruthyStr (try_get_data item.token_uri) = false) :
    (pyStartsWith (pyLowerList (replace_ipfs_gateway IPFS_GATEWAY item.token_uri))
        "ipfs://" = true →
      worker_process try_get_data transport IPFS_GATEWAY item =
        item.set_metadata (some STATUS_CODE_INVALID_IPFS)
          (some (jsonError "invalid ipfs link"))) ∧
    (pyStartsWith (pyLowerList (replace_ipfs_gateway IPFS_GATEWAY item.token_uri))
        "ar://" = true →
      worker_process try_get_data transport IPFS_GATEWAY item =
        item.set_metadata (some STATUS_CODE_UNKNOWN_PROTOCOL)
          (some (jsonError "unknown protocol"))) := by
  constructor
  · intro h
    exact worker_process_remote_keep try_get_data transport IPFS_GATEWAY item
      STATUS_CODE_INVALID_IPFS (jsonError "invalid ipfs link") hb (Or.inl (by decide))
      (request_metadata_ipfs transport _ h)
  · intro h
    exact worker_process_remote_keep try_get_data transport IPFS_GATEWAY item
      STATUS_CODE_UNKNOWN_PROTOCOL (jsonError "unknown protocol") hb (Or.inl (by decide))
      (request_metadata_ar transport _ h)

/-- C1 (witness): `ipfs://abc` and `ar://xyz` contain no content-address
segment, are left unchanged by the rewrite, and are rejected with codes
4 and 5. -/
theorem C1_scheme_rejection_witness :
    worker_process (fun _ => none) (fun _ => TransportOutcome.otherError)
        "https://gw/ipfs/"
        { contract_hash := "c", token_id := "1", token_uri := "ipfs://abc" } =
      ({ contract_hash := "c", token_id := "1",
         token_uri := "ipfs://abc" } : WorkloadItem).set_metadata
        (some STATUS_CODE_INVALID_IPFS) (some (jsonError "invalid ipfs link")) ∧
    worker_process (fun _ => none) (fun _ => TransportOutcome.otherError)
        "https://gw/ipfs/"
        { contract_hash := "c", token_id := "1", token_uri := "ar://xyz" } =
      ({ contract_hash := "c", token_id := "1",
         token_uri := "ar://xyz" } : WorkloadItem).set_metadata
        (some STATUS_CODE_UNKNOWN_PROTOCOL) (some (jsonError "unknown protocol")) :=
  ⟨(C1_scheme_rejection (fun _ => none) (fun _ => TransportOutcome.otherError)
      "https://gw/ipfs/" _ (by decide)).1 (by decide),
   (C1_scheme_rejection (fun _ => none) (fun _ => TransportOutcome.otherError)
      "https://gw/ipfs/" _ (by decide)).2 (by decide)⟩

/-- C4: the worker never emits an unset status or payload: both fields
of the emitted item are set, and when `request_metadata` returns the
bare `(None, None)` the worker converts it to code 0 with payload
`no response` before enqueueing. -/
theorem C4_no_unset_status (try_get_data : String → Option String)
    (transport : String → TransportOutcome) (IPFS_GATEWAY : String)
    (item : WorkloadItem) :
    ((worker_process try_get_data transport IPFS_GATEWAY item).response_code.isSome = true ∧
     (worker_process try_get_data transport IPFS_GATEWAY item).metadata.isSome = true) ∧
    (pyTruthyStr (try_get_data item.token_uri) = false →
     request_metadata transport (replace_ipfs_gateway IPFS_GATEWAY item.token_uri) =
       (none, none) →
     worker_process try_get_data transport IPFS_GATEWAY item =
       item.set_metadata (some 0) (some (jsonError "no response"))) := by
  constructor
  · cases hb : pyTruthyStr (try_get_data item.token_uri) with
    | true =>
      cases hd : try_get_data item.token_uri with
      | none => rw [hd] at hb; simp [pyTruthyStr] at hb
      | some s =>
        have hs : s ≠ "" := by
          intro hs
          rw [hd, hs] at hb
          simp [pyTruthyStr] at hb
        rw [worker_process_inline try_get_data transport IPFS_GATEWAY item s hd hs]
        simp [WorkloadItem.set_metadata]
    | false =>
      rcases request_metadata_shape transport
          (replace_ipfs_gateway IPFS_GATEWAY item.token_uri) with ⟨c, d, hcd⟩ | hcd
      · by_cases hc : c = 0
        · subst hc
          by_cases hdz : d = ""
          · subst hdz
            rw [worker_process_zero_empty try_get_data transport IPFS_GATEWAY item hb hcd]
            simp [WorkloadItem.set_metadata]
          · rw [worker_process_remote_keep try_get_data transport IPFS_GATEWAY item 0 d
              hb (Or.inr hdz) hcd]
            simp [WorkloadItem.set_metadata]
        · rw [worker_process_remote_keep try_get_data transport IPFS_GATEWAY item c d
            hb (Or.inl hc) hcd]
          simp [WorkloadItem.set_metadata]
      · rw [worker_process_remote_none try_get_data transport IPFS_GATEWAY item hb hcd]
        simp [WorkloadItem.set_metadata]
  · intro hb hcd
    exact worker_process_remote_none try_get_data transport IPFS_GATEWAY item hb hcd

/-- C4 (witness): an uncategorized transport failure is emitted as code
0 with the generic `no response` payload. -/
theorem C4_no_unset_status_witness :
    worker_process (fun _ => none) (fun _ => TransportOutcome.otherError) "g"
        { contract_hash := "c", token_id := "1", token_uri := "https://a.b/c" } =
      ({ contract_hash := "c", token_id := "1",
         token_uri := "https://a.b/c" } : WorkloadItem).set_metadata
        (some 0) (some (jsonError "no response")) :=
  (C4_no_unset_status (fun _ => none) (fun _ => TransportOutcome.otherError) "g"
    { contract_hash := "c", token_id := "1", token_uri := "https://a.b/c" }).2
    (by decide) (by decide)

/-! ## Lemmas about the batcher -/

lemma save_worker_go_le {α : Type} :
    ∀ (fuel : Nat) (q : List α), ∀ b ∈ save_worker_go fuel q, b.length ≤ 100 := by
  intro fuel
  induction fuel with
  | zero =>
    intro q b hb
    cases q <;> simp [save_worker_go] at hb
  | succ n ih =>
    intro q b hb
    cases q with
    | nil => simp [save_worker_go] at hb
    | cons x xs =>
      simp only [save_worker_go] at hb
      rcases List.mem_cons.mp hb with h | h
      · subst h
        rw [List.length_take]
        exact le_trans (min_le_left _ _) (min_le_right _ _)
      · exact ih _ b h

/-- A sample item for concrete instantiations. -/
def sampleItem : WorkloadItem :=
  { contract_hash := "c", token_id := "1", token_uri := "u" }

set_option maxRecDepth 4000 in
/-- C6: a single sink call never contains more than 100 items; each
iteration drains `min(depth, 100)` items; a Result Queue depth of 250
with no concurrent replenishment yields exactly three sink calls of
sizes 100, 100 and 50. -/
theorem C6_batch_cap :
    (∀ q : List WorkloadItem, ∀ b ∈ save_worker_batches q, b.length ≤ 100) ∧
    (∀ q : List WorkloadItem, q ≠ [] →
      (save_worker_batches q).head? = some (q.take (min q.length 100))) ∧
    (save_worker_batches (List.range 250)).map List.length = [100, 100, 50] := by
  refine ⟨fun q => save_worker_go_le q.length q, fun q hq => ?_, by decide⟩
  cases q with
  | nil => exact absurd rfl hq
  | cons x xs => simp [save_worker_batches, save_worker_go]

/-- C6 (witness): a one-item queue drains in one call of one item. -/
theorem C6_batch_cap_witness :
    (save_worker_batches [sampleItem]).head? =
      some ([sampleItem].take (min [sampleItem].length 100)) :=
  C6_batch_cap.2.1 [sampleItem] (by simp)

/-- C7: the producer never fetches or enqueues while the Work Queue
depth exceeds 10,000 — it only sleeps one poll interval — and as soon as
the depth is at or below 10,000 the very next iteration fetches. -/
theorem C7_backpressure (inDepth outDepth : Nat) (page : List WorkloadItem) :
    (10000 < inDepth →
      producer_step inDepth outDepth page =
        { fetched := false, enqueued := [], halted := false, slept := true }) ∧
    (inDepth ≤ 10000 → (producer_step inDepth outDepth page).fetched = true) := by
  constructor
  · intro h
    simp [producer_step, h]
  · intro h
    have h' : ¬(10000 < inDepth) := by omega
    simp only [producer_step, if_neg h']
    split
    · split <;> rfl
    · rfl

/-- C7 (witness): depth 10,001 backs off; depth 10,000 fetches. -/
theorem C7_backpressure_witness :
    producer_step 10001 0 [] =
      { fetched := false, enqueued := [], halted := false, slept := true } ∧
    (producer_step 10000 5 []).fetched = true :=
  ⟨(C7_backpressure 10001 0 []).1 (by omega),
   (C7_backpressure 10000 5 []).2 (by omega)⟩

/-- C8: the producer loop halts exactly when the fetched page is empty
and both queues are empty; on an empty page with a non-empty queue it
does not halt and waits one poll interval before re-checking. -/
theorem C8_termination (inDepth outDepth : Nat) (page : List WorkloadItem) :
    ((producer_step inDepth outDepth page).halted = true ↔
      (page = [] ∧ outDepth = 0 ∧ inDepth = 0)) ∧
    (page = [] → ¬(outDepth = 0 ∧ inDepth = 0) →
      (producer_step inDepth outDepth page).halted = false ∧
      (producer_step inDepth outDepth page).slept = true) := by
  constructor
  · by_cases h1 : 10000 < inDepth
    · simp only [producer_step, if_pos h1]
      constructor
      · intro hh
        exact absurd hh (by simp)
      · rintro ⟨-, -, h0⟩
        omega
    · by_cases h2 : page = []
      · subst h2
        by_cases h3 : outDepth = 0 ∧ inDepth = 0
        · simp [producer_step, h1, h3]
        · simp [producer_step, h1, h3]
      · simp [producer_step, h1, h2, List.isEmpty_iff]
  · rintro rfl h3
    by_cases h1 : 10000 < inDepth
    · simp [producer_step, h1]
    · simp [producer_step, h1, h3]

/-- C8 (witness): an empty page with three results still queued does not
halt the loop and sleeps; an empty page with both queues empty halts. -/
theorem C8_termination_witness :
    ((producer_step 0 3 []).halted = false ∧ (producer_step 0 3 []).slept = true) ∧
    (producer_step 0 0 []).halted = true :=
  ⟨(C8_termination 0 3 []).2 rfl (by omega),
   (C8_termination 0 0 []).1.mpr ⟨rfl, rfl, rfl⟩⟩

/-- C9 (counterexample): with the three string values present but
`MAX_REQUESTS` absent, startup succeeds with the default 200 — absence
of the max-parallel-requests value is not fatal, refuting "all four are
mandatory". -/
theorem C9_counterexample :
    module_init (some "key") (some "https://api") (some "https://gw/ipfs/") none
        (fun _ => none) =
      Except.ok { API_KEY := some "key", API_URI := some "https://api",
                  IPFS_GATEWAY := some "https://gw/ipfs/", MAX_REQUESTS := 200 } := rfl

/-- C9 (amended): three of the four configuration values — API base URI,
API key and gateway prefix — are mandatory: a missing (or empty) one
raises at startup, checked in the order API_URI, API_KEY, IPFS_GATEWAY;
max-parallel-requests is optional and defaults to 200 when unset. -/
theorem C9_mandatory_config (api_key api_uri ipfs_gateway : Option String)
    (pyInt : String → Option Int) :
    (pyTruthyStr api_uri = false →
      module_init api_key api_uri ipfs_gateway none pyInt =
        Except.error "No API_URI set!") ∧
    (pyTruthyStr api_uri = true → pyTruthyStr api_key = false →
      module_init api_key api_uri ipfs_gateway none pyInt =
        Except.error "No API_KEY set!") ∧
    (pyTruthyStr api_uri = true → pyTruthyStr api_key = true →
      pyTruthyStr ipfs_gateway = false →
      module_init api_key api_uri ipfs_gateway none pyInt =
        Except.error "No IPFS_GATEWAY set!") ∧
    (pyTruthyStr api_uri = true → pyTruthyStr api_key = true →
      pyTruthyStr ipfs_gateway = true →
      module_init api_key api_uri ipfs_gateway none pyInt =
        Except.ok { API_KEY := api_key, API_URI := api_uri,
                    IPFS_GATEWAY := ipfs_gateway, MAX_REQUESTS := 200 }) := by
  refine ⟨fun h1 => ?_, fun h1 h2 => ?_, fun h1 h2 h3 => ?_, fun h1 h2 h3 => ?_⟩
  · simp [module_init, h1]
  · simp [module_init, h1, h2]
  · simp [module_init, h1, h2, h3]
  · simp [module_init, h1, h2, h3]

/-- C9 (witness): a missing API_URI is fatal; all three present with
MAX_REQUESTS unset starts up with the default 200. -/
theorem C9_mandatory_config_witness :
    module_init (some "key") none (some "gw") none (fun _ => none) =
      Except.error "No API_URI set!" ∧
    module_init (some "key") (some "uri") (some "gw") none (fun _ => none) =
      Except.ok { API_KEY := some "key", API_URI := some "uri",
                  IPFS_GATEWAY := some "gw", MAX_REQUESTS := 200 } :=
  ⟨(C9_mandatory_config (some "key") none (some "gw") (fun _ => none)).1 rfl,
   (C9_mandatory_config (some "key") (some "uri") (some "gw") (fun _ => none)).2.2.2
     (by decide) (by decide) (by decide)⟩

end Crawler
